import Mathlib

/-!
Verification of the Velox ↔ Arrow C-data bridge
(`velox/vector/arrow/Bridge.cpp`).

The bridge's data model is embedded shallowly:

* `VeloxType` models the Velox type tree (`TypePtr`); the type-tree library
  itself is an external collaborator of the bridge, so it is modelled from the
  spec's data model (§3 TypeDescriptor).
* `ArrowSchema` / `ArrowArray` model the two Arrow C-ABI structs.  Raw
  pointers are modelled as `Option Nat` (a `none` is a null pointer, a
  `some a` is the address `a`); the `release` callback pointer and the
  `private_data` pointer are modelled as `Bool` flags recording whether they
  are non-null, since every node built by the bridge carries the same bridge
  callback and the claims only observe nullness.
* Fallible C++ code (VELOX_CHECK / VELOX_NYI / VELOX_USER_FAIL throw) is
  modelled with `Except VeloxError` or an explicit outcome record; each
  distinct error message in the source gets its own `VeloxError` constructor.
-/

namespace VeloxArrowBridge

/-- Velox type tree (`TypePtr`).  Modelled from the spec (§3 TypeDescriptor):
the type-tree implementation is an external collaborator of the bridge, whose
kinds are a fixed enumeration of scalars plus the composites array/map/row.
`UNKNOWN` stands for any `TypeKind` value outside the bridge's tables (the
`default:` branches of the switches in Bridge.cpp). -/
inductive VeloxType : Type where
  | BOOLEAN
  | TINYINT
  | SMALLINT
  | INTEGER
  | BIGINT
  | REAL
  | DOUBLE
  | VARCHAR
  | VARBINARY
  | TIMESTAMP
  | DATE
  | ARRAY (elem : VeloxType)
  | MAP (key value : VeloxType)
  | ROW (fields : List (String × VeloxType))
  | UNKNOWN

/-- One constructor per distinct error raised in Bridge.cpp
(VELOX_NYI / VELOX_USER_FAIL / VELOX_CHECK... each carry distinct messages). -/
inductive VeloxError : Type where
  | typeExportNotImplemented
  | flatVectorKindNotImplemented
  | encodingNotImplemented
  | schemaFormatNull
  | schemaFormatUnsupported
  | schemaChildArityMismatch
  | schemaChildNull
  | schemaWasReleased
  | arrayWasReleased
  | dictionaryNotSupported
  | childrenNotSupported
  | offsetNotSupported
  | negativeLength
  | nonPrimitiveTypeNotSupported
  | nullsBufferMissing
  | nullsBufferUnexpected
  | buffersCountMismatch
deriving DecidableEq, Repr

/-- The `ArrowSchema` C struct.  `format` is the format C-string (modelled as
a list of characters; `none` is a null pointer), `name` a nullable string,
`metadata` a nullable opaque string, `flags` the flag bitmask, `children` the
child-pointer array (each entry nullable), `dictionary` a nullable pointer,
and the two `Bool`s record whether `release` and `private_data` are non-null.
`n_children` is identified with the length of the children array. -/
inductive ArrowSchema : Type where
  | mk (format : Option (List Char)) (name : Option String)
       (metadata : Option String) (flags : Int)
       (children : List (Option ArrowSchema)) (dictionary : Option ArrowSchema)
       (hasRelease : Bool) (hasPrivateData : Bool)

def ArrowSchema.format : ArrowSchema → Option (List Char)
  | .mk f _ _ _ _ _ _ _ => f

def ArrowSchema.name : ArrowSchema → Option String
  | .mk _ n _ _ _ _ _ _ => n

def ArrowSchema.metadata : ArrowSchema → Option String
  | .mk _ _ m _ _ _ _ _ => m

def ArrowSchema.flags : ArrowSchema → Int
  | .mk _ _ _ fl _ _ _ _ => fl

def ArrowSchema.children : ArrowSchema → List (Option ArrowSchema)
  | .mk _ _ _ _ ch _ _ _ => ch

def ArrowSchema.dictionary : ArrowSchema → Option ArrowSchema
  | .mk _ _ _ _ _ d _ _ => d

def ArrowSchema.release : ArrowSchema → Bool
  | .mk _ _ _ _ _ _ r _ => r

def ArrowSchema.privateData : ArrowSchema → Bool
  | .mk _ _ _ _ _ _ _ p => p

@[simp] theorem ArrowSchema.format_mk (f n m fl ch d r p) :
    (ArrowSchema.mk f n m fl ch d r p).format = f := rfl

@[simp] theorem ArrowSchema.name_mk (f n m fl ch d r p) :
    (ArrowSchema.mk f n m fl ch d r p).name = n := rfl

@[simp] theorem ArrowSchema.metadata_mk (f n m fl ch d r p) :
    (ArrowSchema.mk f n m fl ch d r p).metadata = m := rfl

@[simp] theorem ArrowSchema.flags_mk (f n m fl ch d r p) :
    (ArrowSchema.mk f n m fl ch d r p).flags = fl := rfl

@[simp] theorem ArrowSchema.children_mk (f n m fl ch d r p) :
    (ArrowSchema.mk f n m fl ch d r p).children = ch := rfl

@[simp] theorem ArrowSchema.dictionary_mk (f n m fl ch d r p) :
    (ArrowSchema.mk f n m fl ch d r p).dictionary = d := rfl

@[simp] theorem ArrowSchema.release_mk (f n m fl ch d r p) :
    (ArrowSchema.mk f n m fl ch d r p).release = r := rfl

@[simp] theorem ArrowSchema.privateData_mk (f n m fl ch d r p) :
    (ArrowSchema.mk f n m fl ch d r p).privateData = p := rfl

/-! ### bridgeSchemaRelease (Bridge.cpp lines 97-126)

The release callback installed on every schema node the bridge exports.  The
source mutates the node in place; the model returns the node's state after the
call.  Every node of a bridge-exported tree carries `bridgeSchemaRelease` as
its callback, so the recursive `child->release(child)` call is
`bridgeSchemaRelease` itself.  The child loop is bounded by `n_children`,
identified here with the length of the children array. -/

mutual

def bridgeSchemaRelease : ArrowSchema → ArrowSchema
  | .mk f n m fl ch d r p =>
    -- `if (!arrowSchema || !arrowSchema->release) return;`
    if r = false then .mk f n m fl ch d r p
    else
      -- release children, then dictionary, then destroy the holder and
      -- clear `release`/`private_data` on the node itself.
      .mk f n m fl (bridgeSchemaReleaseChildren ch) (bridgeSchemaReleaseNode d)
        false false

def bridgeSchemaReleaseChildren :
    List (Option ArrowSchema) → List (Option ArrowSchema)
  | [] => []
  | c :: rest => bridgeSchemaReleaseNode c :: bridgeSchemaReleaseChildren rest

/-- Models `if (child != nullptr && child->release != nullptr) child->release(child);`
(used for both child entries and the dictionary). -/
def bridgeSchemaReleaseNode : Option ArrowSchema → Option ArrowSchema
  | none => none
  | some c => some (if c.release then bridgeSchemaRelease c else c)

end

/-! ### exportArrowFormatStr (Bridge.cpp lines 148-186)

Returns the Arrow C data interface format string for a Velox type; the
`default:` branch raises VELOX_NYI, modelled as `none`. -/

def exportArrowFormatStr : VeloxType → Option (List Char)
  | .BOOLEAN => some ['b']
  | .TINYINT => some ['c']
  | .SMALLINT => some ['s']
  | .INTEGER => some ['i']
  | .BIGINT => some ['l']
  | .REAL => some ['f']
  | .DOUBLE => some ['g']
  | .VARCHAR => some ['u']
  | .VARBINARY => some ['z']
  | .TIMESTAMP => some ['t', 't', 'n']
  | .DATE => some ['t', 'd', 'D']
  | .ARRAY _ => some ['+', 'L']
  | .MAP _ _ => some ['+', 'm']
  | .ROW _ => some ['+', 's']
  | .UNKNOWN => none

/-- The `ARROW_FLAG_NULLABLE` flag of the Arrow C data interface. -/
def kArrowFlagNullable : Int := 2

/-- An `ArrowSchema` whose bytes are all zero, as produced by
`std::make_unique<ArrowSchema>()` (value-initialization) for each child in
the schema exporter. -/
def zeroArrowSchema : ArrowSchema := .mk none none none 0 [] none false false

/-- Models `currentSchema->name = bridgeHolder->rowType->nameOf(i).data();`
(Bridge.cpp line 281): set the child node's name pointer. -/
def ArrowSchema.setName : ArrowSchema → String → ArrowSchema
  | .mk f _ m fl ch d r p, nm => .mk f (some nm) m fl ch d r p

/-- The field writes `exportToArrow(TypePtr)` performs before recursing into
children (Bridge.cpp lines 237-245): `format`, `name = nullptr`,
`metadata = nullptr`, `dictionary = nullptr`, `flags = ARROW_FLAG_NULLABLE`.
`children`, `release` and `private_data` keep the caller struct's values. -/
def ArrowSchema.withExportBase : ArrowSchema → List Char → ArrowSchema
  | .mk _ _ _ _ ch _ r p, fmt =>
    .mk (some fmt) none none kArrowFlagNullable ch none r p

/-- Final state of a successfully exported node (Bridge.cpp lines 261-262 and
283 link the children, lines 299-300 set `release = bridgeSchemaRelease` and
move the holder into `private_data`). -/
def ArrowSchema.withBuilt : ArrowSchema → List ArrowSchema → ArrowSchema
  | .mk f n m fl _ d _ _, kids => .mk f n m fl (kids.map some) d true true

/-- State of the caller's struct when the export of a child failed and the
exception is re-thrown: `release`/`private_data` were never set on the parent
(they are set only at lines 299-300, after the loop), and the `children`
pointer dangles because the bridge holder owning the child objects is freed
during unwinding — the model records no children on the failed node. -/
def ArrowSchema.onFailedExport : ArrowSchema → ArrowSchema
  | .mk f n m fl _ d r p => .mk f n m fl [] d r p

/-- Outcome of `exportToArrow(const TypePtr&, ArrowSchema&)`: `node` is the
caller's struct after the call, `err` the exception propagated (if any), and
`released` every node on which a release callback was invoked while the
failure unwound (Bridge.cpp lines 284-291), in invocation order. -/
structure SchemaExportOutcome : Type where
  node : ArrowSchema
  err : Option VeloxError
  released : List ArrowSchema

/-- Result of the child-export loop of `exportToArrow(TypePtr)`:
either the list of built child nodes, or the first error together with every
node released during unwinding (the failing child's own rollback, then the
already-linked siblings `0..i-1` in index order, Bridge.cpp lines 284-291). -/
inductive ChildrenExportResult : Type where
  | ok (nodes : List ArrowSchema)
  | fail (err : VeloxError) (released : List ArrowSchema)

/-! ### exportToArrow for types (Bridge.cpp lines 236-301)

The recursion of the schema exporter.  Each child is exported into a fresh
zero-initialized struct; for row types the parent then points the child's
`name` at the field name.  If a child's export throws, the already-linked
siblings `0..i-1` are released (their callback is `bridgeSchemaRelease`)
before the exception is propagated.  `ARRAY`/`MAP`/`ROW` all run the same
child loop in the source (`type->size()` children); here the one- and
two-child cases are unrolled. -/

mutual

def exportToArrowSchema (t : VeloxType) (dest : ArrowSchema) :
    SchemaExportOutcome :=
  match exportArrowFormatStr t with
  | none => ⟨dest, some .typeExportNotImplemented, []⟩
  | some fmt =>
    let base := dest.withExportBase fmt
    match t with
    | .ARRAY elem =>
      let c := exportToArrowSchema elem zeroArrowSchema
      match c.err with
      | some e => ⟨base.onFailedExport, some e, c.released⟩
      | none => ⟨base.withBuilt [c.node], none, []⟩
    | .MAP keyType valType =>
      let ck := exportToArrowSchema keyType zeroArrowSchema
      match ck.err with
      | some e => ⟨base.onFailedExport, some e, ck.released⟩
      | none =>
        let cv := exportToArrowSchema valType zeroArrowSchema
        match cv.err with
        | some e =>
          ⟨base.onFailedExport, some e,
            cv.released ++ [bridgeSchemaRelease ck.node]⟩
        | none => ⟨base.withBuilt [ck.node, cv.node], none, []⟩
    | .ROW fields =>
      match exportRowChildren fields [] with
      | .fail e rel => ⟨base.onFailedExport, some e, rel⟩
      | .ok kids => ⟨base.withBuilt kids, none, []⟩
    | _ => ⟨base.withBuilt [], none, []⟩

/-- The child loop for row types.  `built` accumulates the already-linked
children (indices `0..i-1`); on a child failure they are released in index
order after the failing child's own rollback. -/
def exportRowChildren (fields : List (String × VeloxType))
    (built : List ArrowSchema) : ChildrenExportResult :=
  match fields with
  | [] => .ok built
  | (nm, childType) :: rest =>
    let c := exportToArrowSchema childType zeroArrowSchema
    match c.err with
    | some e => .fail e (c.released ++ built.map bridgeSchemaRelease)
    | none => exportRowChildren rest (built ++ [c.node.setName nm])

end

/-! ### importFromArrow for schemas (Bridge.cpp lines 303-390)

Parses an `ArrowSchema` tree back into a Velox type.  Dispatch is on the
first character of `format` (so trailing characters beyond a recognized code
are ignored, exactly as `switch (format[0])` does); `t` and `+` codes read
the following characters.  The arity checks compare `n_children` (the length
of the children array) and each accessed child pointer is checked non-null. -/

mutual

def importFromArrow : ArrowSchema → Except VeloxError VeloxType
  | .mk fmtOpt _ _ _ ch _ _ _ =>
    match fmtOpt with
    | none => .error .schemaFormatNull
    | some fmt =>
      match fmt with
      | 'b' :: _ => .ok .BOOLEAN
      | 'c' :: _ => .ok .TINYINT
      | 's' :: _ => .ok .SMALLINT
      | 'i' :: _ => .ok .INTEGER
      | 'l' :: _ => .ok .BIGINT
      | 'f' :: _ => .ok .REAL
      | 'g' :: _ => .ok .DOUBLE
      | 'u' :: _ => .ok .VARCHAR
      | 'U' :: _ => .ok .VARCHAR
      | 'z' :: _ => .ok .VARBINARY
      | 'Z' :: _ => .ok .VARBINARY
      | 't' :: 't' :: 'n' :: _ => .ok .TIMESTAMP
      | 't' :: 'd' :: 'D' :: _ => .ok .DATE
      | '+' :: 'L' :: _ =>
        match ch with
        | [some c] => (importFromArrow c).map .ARRAY
        | [none] => .error .schemaChildNull
        | _ => .error .schemaChildArityMismatch
      | '+' :: 'm' :: _ =>
        match ch with
        | [some k, some v] => do
          let kt ← importFromArrow k
          let vt ← importFromArrow v
          .ok (.MAP kt vt)
        | [none, _] => .error .schemaChildNull
        | [_, none] => .error .schemaChildNull
        | _ => .error .schemaChildArityMismatch
      | '+' :: 's' :: _ => (importRowChildren ch).map .ROW
      | _ => .error .schemaFormatUnsupported

/-- The child-collection loop of the struct case (Bridge.cpp lines 363-377):
each child pointer is checked non-null, imported, and paired with its name
(or the empty string when `name` is null). -/
def importRowChildren :
    List (Option ArrowSchema) → Except VeloxError (List (String × VeloxType))
  | [] => .ok []
  | none :: _ => .error .schemaChildNull
  | some c :: rest => do
    let t ← importFromArrow c
    let restPairs ← importRowChildren rest
    .ok ((c.name.getD "", t) :: restPairs)

end

/-! ### ArrowArray -/

/-- The `ArrowArray` C struct.  The integer fields are the struct's `int64_t`
fields; `buffers0`/`buffers1` are the two slots of the `buffers` pointer
array (the bridge uses `kMaxBuffers = 2` slots; a slot is `none` when the
pointer is null, `some a` when it holds address `a`).  `children` is `none`
when the child-pointer array itself is null.  The two `Bool`s record whether
`release` and `private_data` are non-null. -/
inductive ArrowArray : Type where
  | mk (length null_count offset n_buffers : Int)
       (buffers0 buffers1 : Option Nat)
       (n_children : Int) (children : Option (List (Option ArrowArray)))
       (dictionary : Option ArrowArray)
       (hasRelease hasPrivateData : Bool)

def ArrowArray.length : ArrowArray → Int
  | .mk len _ _ _ _ _ _ _ _ _ _ => len

def ArrowArray.null_count : ArrowArray → Int
  | .mk _ nc _ _ _ _ _ _ _ _ _ => nc

def ArrowArray.offset : ArrowArray → Int
  | .mk _ _ off _ _ _ _ _ _ _ _ => off

def ArrowArray.n_buffers : ArrowArray → Int
  | .mk _ _ _ nb _ _ _ _ _ _ _ => nb

def ArrowArray.buffers0 : ArrowArray → Option Nat
  | .mk _ _ _ _ b0 _ _ _ _ _ _ => b0

def ArrowArray.buffers1 : ArrowArray → Option Nat
  | .mk _ _ _ _ _ b1 _ _ _ _ _ => b1

def ArrowArray.n_children : ArrowArray → Int
  | .mk _ _ _ _ _ _ nch _ _ _ _ => nch

def ArrowArray.children : ArrowArray → Option (List (Option ArrowArray))
  | .mk _ _ _ _ _ _ _ ch _ _ _ => ch

def ArrowArray.dictionary : ArrowArray → Option ArrowArray
  | .mk _ _ _ _ _ _ _ _ d _ _ => d

def ArrowArray.release : ArrowArray → Bool
  | .mk _ _ _ _ _ _ _ _ _ r _ => r

def ArrowArray.privateData : ArrowArray → Bool
  | .mk _ _ _ _ _ _ _ _ _ _ p => p

@[simp] theorem ArrowArray.length_mk (len nc off nb b0 b1 nch ch d r p) :
    (ArrowArray.mk len nc off nb b0 b1 nch ch d r p).length = len := rfl

@[simp] theorem ArrowArray.null_count_mk (len nc off nb b0 b1 nch ch d r p) :
    (ArrowArray.mk len nc off nb b0 b1 nch ch d r p).null_count = nc := rfl

@[simp] theorem ArrowArray.offset_mk (len nc off nb b0 b1 nch ch d r p) :
    (ArrowArray.mk len nc off nb b0 b1 nch ch d r p).offset = off := rfl

@[simp] theorem ArrowArray.n_buffers_mk (len nc off nb b0 b1 nch ch d r p) :
    (ArrowArray.mk len nc off nb b0 b1 nch ch d r p).n_buffers = nb := rfl

@[simp] theorem ArrowArray.buffers0_mk (len nc off nb b0 b1 nch ch d r p) :
    (ArrowArray.mk len nc off nb b0 b1 nch ch d r p).buffers0 = b0 := rfl

@[simp] theorem ArrowArray.buffers1_mk (len nc off nb b0 b1 nch ch d r p) :
    (ArrowArray.mk len nc off nb b0 b1 nch ch d r p).buffers1 = b1 := rfl

@[simp] theorem ArrowArray.n_children_mk (len nc off nb b0 b1 nch ch d r p) :
    (ArrowArray.mk len nc off nb b0 b1 nch ch d r p).n_children = nch := rfl

@[simp] theorem ArrowArray.children_mk_arr (len nc off nb b0 b1 nch ch d r p) :
    (ArrowArray.mk len nc off nb b0 b1 nch ch d r p).children = ch := rfl

@[simp] theorem ArrowArray.dictionary_mk_arr (len nc off nb b0 b1 nch ch d r p) :
    (ArrowArray.mk len nc off nb b0 b1 nch ch d r p).dictionary = d := rfl

@[simp] theorem ArrowArray.release_mk_arr (len nc off nb b0 b1 nch ch d r p) :
    (ArrowArray.mk len nc off nb b0 b1 nch ch d r p).release = r := rfl

@[simp] theorem ArrowArray.privateData_mk_arr (len nc off nb b0 b1 nch ch d r p) :
    (ArrowArray.mk len nc off nb b0 b1 nch ch d r p).privateData = p := rfl

/-! ### bridgeRelease (Bridge.cpp lines 63-92)

The release callback installed on every exported `ArrowArray`.  Identical in
shape to `bridgeSchemaRelease`: recurse into children and dictionary, destroy
the holder, clear `release` and `private_data`.  The child loop is bounded by
`n_children`, identified with the length of the stored children array. -/

mutual

def bridgeRelease : ArrowArray → ArrowArray
  | .mk len nc off nb b0 b1 nch ch d r p =>
    if r = false then .mk len nc off nb b0 b1 nch ch d r p
    else
      .mk len nc off nb b0 b1 nch (bridgeReleaseChildrenArr ch)
        (bridgeReleaseNode d) false false

def bridgeReleaseChildrenArr :
    Option (List (Option ArrowArray)) → Option (List (Option ArrowArray))
  | none => none
  | some cs => some (bridgeReleaseChildren cs)

def bridgeReleaseChildren : List (Option ArrowArray) → List (Option ArrowArray)
  | [] => []
  | c :: rest => bridgeReleaseNode c :: bridgeReleaseChildren rest

/-- Models `if (child != nullptr && child->release != nullptr) child->release(child);`
(used for both child entries and the dictionary). -/
def bridgeReleaseNode : Option ArrowArray → Option ArrowArray
  | none => none
  | some c => some (if c.release then bridgeRelease c else c)

end

/-! ### The Velox vector being exported

The columnar-vector library is an external collaborator of the bridge
(spec §3 ColumnarVector): one in-memory column with a kind, an encoding tag,
a length, an optionally cached null count, an optional raw null-bitmap
pointer and a raw value-storage pointer. -/

/-- The `VectorEncoding::Simple` values the bridge can see; only `FLAT` is
exportable. -/
inductive VectorEncoding : Type where
  | FLAT
  | CONSTANT
  | DICTIONARY
  | SEQUENCE
  | LAZY
deriving DecidableEq, Repr

/-- Modelled from the spec (§3 ColumnarVector): the in-memory column handed
to `exportToArrow(VectorPtr)`.  `nullCount` models `getNullCount()`
(`none` when the count was never computed), `rawNulls` the raw null-bitmap
pointer (`none` when the vector has no nulls buffer) and `rawValues` the
`valuesAsVoid()` raw value-storage pointer. -/
structure VeloxVector : Type where
  vecType : VeloxType
  encoding : VectorEncoding
  size : Nat
  nullCount : Option Int
  rawNulls : Option Nat
  rawValues : Option Nat

/-- Constant `kMaxBuffers` (Bridge.cpp line 30): number of slots of the buffer-pointer
array owned by the bridge holder; always used as `n_buffers`. -/
def kMaxBuffers : Int := 2

/-- Which scalar kinds `exportFlatVector` can hand over
(Bridge.cpp lines 129-138). -/
def isFlatExportableKind : VeloxType → Bool
  | .BOOLEAN | .TINYINT | .SMALLINT | .INTEGER | .BIGINT | .REAL | .DOUBLE =>
    true
  | _ => false

/-- Function `exportFlatVector` (Bridge.cpp lines 128-145): for the supported scalar
kinds it stores `vector->valuesAsVoid()` into `arrowArray.buffers[1]`;
otherwise VELOX_NYI.  The model returns the value written into the slot. -/
def exportFlatVector (v : VeloxVector) : Except VeloxError (Option Nat) :=
  if isFlatExportableKind v.vecType then .ok v.rawValues
  else .error .flatVectorKindNotImplemented

/-- Function `exportToArrow(const VectorPtr&, ArrowArray&)` (Bridge.cpp lines 190-234).
On success the caller's struct reads: `n_buffers = kMaxBuffers`,
`length = vector->size()`, `null_count = getNullCount().value_or(-1)`,
`offset = 0`, `buffers[0] = rawNulls()`, `buffers[1]` from
`exportFlatVector`, `n_children = 0`, `children = nullptr`,
`dictionary = nullptr`, `release = bridgeRelease` and `private_data` the
bridge holder.  Non-flat encodings and unsupported kinds raise VELOX_NYI
(the model returns the struct only on success). -/
def exportToArrowArray (v : VeloxVector) : Except VeloxError ArrowArray :=
  match v.encoding with
  | .FLAT =>
    match exportFlatVector v with
    | .error e => .error e
    | .ok vals =>
      .ok (.mk (Int.ofNat v.size) (v.nullCount.getD (-1)) 0 kMaxBuffers
          v.rawNulls vals 0 none none true true)
  | _ => .error .encodingNotImplemented

/-! ### Buffer views and the array importer (Bridge.cpp lines 392-573) -/

/-- Which `BufferViewReleaser` a zero-copy view carries: the inert static
releaser of `wrapInBufferViewAsViewer`, or the ownership-transferring one of
`wrapInBufferViewAsOwner` (whose shared-pointer state is modelled by
`ForeignNodeState` below). -/
inductive BufferReleaser : Type where
  | viewer
  | owner
deriving DecidableEq, Repr

/-- A zero-copy `BufferView` over foreign memory: the wrapped raw pointer,
the byte length passed to `BufferView::create`, and which releaser variant it
carries.  No payload bytes exist in the model because none are copied. -/
structure VeloxBufferView : Type where
  ptr : Option Nat
  byteSize : Nat
  releaser : BufferReleaser
deriving DecidableEq, Repr

/-- Function `wrapInBufferViewAsViewer` (Bridge.cpp lines 417-421). -/
def wrapInBufferViewAsViewer (buffer : Option Nat) (len : Nat) :
    VeloxBufferView := ⟨buffer, len, .viewer⟩

/-- Function `wrapInBufferViewAsOwner` (Bridge.cpp lines 426-435). -/
def wrapInBufferViewAsOwner (buffer : Option Nat) (len : Nat) :
    VeloxBufferView := ⟨buffer, len, .owner⟩

/-- The `wrapInBufferView` callback handed to `importFromArrowImpl`: the
viewer entry point passes `wrapInBufferViewAsViewer`, the owner entry point a
lambda closing over the two shared pointers and calling
`wrapInBufferViewAsOwner`. -/
def wrapInBufferView (mode : BufferReleaser) (buffer : Option Nat)
    (len : Nat) : VeloxBufferView :=
  match mode with
  | .viewer => wrapInBufferViewAsViewer buffer len
  | .owner => wrapInBufferViewAsOwner buffer len

/-- Modelled from the spec: `Type::isPrimitiveType()` of the external
type-tree library — scalar kinds are primitive, the composites
array/map/row are not.  (`UNKNOWN` never reaches this check: it is not in
`importFromArrow`'s image.) -/
def VeloxType.isPrimitiveType : VeloxType → Bool
  | .ARRAY _ | .MAP _ _ | .ROW _ | .UNKNOWN => false
  | _ => true

/-- Modelled from the spec (§4.6 step 3, "length × element-byte-width"):
`Type::cppSizeInBytes()` of the external type-tree library, the C++ size of
one element (`sizeof` of the native type: `bool`/`int8_t` 1, `int16_t` 2,
`int32_t`/`float`/days-date 4, `int64_t`/`double` 8, `StringView` and
`Timestamp` 16).  Composites never reach this call. -/
def VeloxType.cppSizeInBytes : VeloxType → Nat
  | .BOOLEAN => 1
  | .TINYINT => 1
  | .SMALLINT => 2
  | .INTEGER => 4
  | .BIGINT => 8
  | .REAL => 4
  | .DOUBLE => 8
  | .VARCHAR => 16
  | .VARBINARY => 16
  | .TIMESTAMP => 16
  | .DATE => 4
  | _ => 0

/-- Function `bits::nbytes` of the external bit-utility library (modelled from the
spec, §4.6 step 2: "sized at ⌈length/8⌉ bytes"); only called after
`length ≥ 0` was checked. -/
def nbytes (bitCount : Int) : Nat := ((bitCount + 7) / 8).toNat

/-- The `FlatVector<T>` built by `createFlatVector` (Bridge.cpp lines
438-457), reduced to what the bridge hands it: type, nulls view, length,
values view, and the null-count statistic (`std::nullopt` when the input said
"unknown"). -/
structure FlatVector : Type where
  vecType : VeloxType
  nulls : Option VeloxBufferView
  length : Int
  values : VeloxBufferView
  nullCount : Option Int

/-- Function `createFlatVector` (Bridge.cpp lines 438-457): carries `nullCount`
through, mapping the sentinel `-1` to "unknown". -/
def createFlatVector (t : VeloxType) (nulls : Option VeloxBufferView)
    (length : Int) (values : VeloxBufferView) (nullCount : Int) : FlatVector :=
  ⟨t, nulls, length, values,
    if nullCount = -1 then none else some nullCount⟩

/-- Function `importFromArrowImpl` (Bridge.cpp lines 462-522), the shared body of the
two import entry points.  The checks run in source order, each raising its
own error:  released schema, released array, non-null dictionary, children
present, non-zero offset, negative length; then the schema is imported and
must resolve to a primitive type; the nulls buffer is wrapped only when
`null_count != 0` (it must then be non-null; with `null_count == 0` it must
be null); `n_buffers` must be 2; finally the values buffer is wrapped with
`length * cppSizeInBytes` bytes and the flat vector is built. -/
def importFromArrowImpl (arrowSchema : ArrowSchema) (arrowArray : ArrowArray)
    (mode : BufferReleaser) : Except VeloxError FlatVector :=
  if arrowSchema.release = false then .error .schemaWasReleased
  else if arrowArray.release = false then .error .arrayWasReleased
  else if arrowArray.dictionary.isSome then .error .dictionaryNotSupported
  else if ¬(arrowArray.n_children = 0 ∧ arrowArray.children.isNone) then
    .error .childrenNotSupported
  else if arrowArray.offset ≠ 0 then .error .offsetNotSupported
  else if arrowArray.length < 0 then .error .negativeLength
  else
    match importFromArrow arrowSchema with
    | .error e => .error e
    | .ok t =>
      if t.isPrimitiveType = false then .error .nonPrimitiveTypeNotSupported
      else
        match
          (if arrowArray.null_count ≠ 0 then
            match arrowArray.buffers0 with
            | none => .error .nullsBufferMissing
            | some _ =>
              .ok (some (wrapInBufferView mode arrowArray.buffers0
                    (nbytes arrowArray.length)))
          else if arrowArray.buffers0.isSome then .error .nullsBufferUnexpected
          else .ok none :
            Except VeloxError (Option VeloxBufferView)) with
        | .error e => .error e
        | .ok nulls =>
          if arrowArray.n_buffers ≠ 2 then .error .buffersCountMismatch
          else
            .ok (createFlatVector t nulls arrowArray.length
              (wrapInBufferView mode arrowArray.buffers1
                (arrowArray.length.toNat * t.cppSizeInBytes))
              arrowArray.null_count)

/-- Function `importFromArrowAsViewer` (Bridge.cpp lines 525-531). -/
def importFromArrowAsViewer (arrowSchema : ArrowSchema)
    (arrowArray : ArrowArray) : Except VeloxError FlatVector :=
  importFromArrowImpl arrowSchema arrowArray .viewer

/-! ### Owner-mode ownership transfer (Bridge.cpp lines 398-412, 533-573)

`importFromArrowAsOwner` heap-copies the two foreign structs into
`std::shared_ptr`s whose custom deleters invoke the foreign `release`
callback (if still set) and free the copy.  Each buffer view's
`BufferViewReleaser` holds one reference to each shared pointer; the
function's own local references die when it returns, so after a successful
call the use count of each shared pointer equals the number of buffer views
created.  `ForeignNodeState` models one such shared pointer: the reference
count, whether the heap copy is still allocated, whether the copy's `release`
callback pointer is non-null, and how many times the foreign release
callback has been invoked. -/

structure ForeignNodeState : Type where
  refs : Nat
  allocated : Bool
  releaseCb : Bool
  releaseCalls : Nat
deriving DecidableEq, Repr

/-- Dropping one shared-pointer reference.  When the last reference drops,
the custom deleter runs:
`if (toDelete != nullptr) { if (toDelete->release != nullptr)
toDelete->release(toDelete); delete toDelete; }` — the foreign callback fires
iff the copy is allocated and its `release` pointer is non-null, and the
copy is freed.  Dropping with no references left is a no-op (there is no
reference left to drop). -/
def dropRef (h : ForeignNodeState) : ForeignNodeState :=
  if h.refs = 0 then h
  else if h.refs = 1 then
    { refs := 0, allocated := false, releaseCb := false,
      releaseCalls :=
        h.releaseCalls + (if h.allocated ∧ h.releaseCb then 1 else 0) }
  else { h with refs := h.refs - 1 }

/-- Models `arrowSchema.release = nullptr;` (Bridge.cpp line 569): the caller's
struct is marked released to the caller; nothing else on it is touched. -/
def ArrowSchema.clearRelease : ArrowSchema → ArrowSchema
  | .mk f n m fl ch d _ p => .mk f n m fl ch d false p

/-- Models `arrowArray.release = nullptr;` (Bridge.cpp line 570). -/
def ArrowArray.clearRelease : ArrowArray → ArrowArray
  | .mk len nc off nb b0 b1 nch ch d _ p =>
    .mk len nc off nb b0 b1 nch ch d false p

/-- Observable outcome of a successful `importFromArrowAsOwner`: the
imported vector, the caller's two structs after the call, and the state of
the two shared pointers that the surviving buffer views co-own. -/
structure OwnerImportResult : Type where
  vec : FlatVector
  schemaOut : ArrowSchema
  arrayOut : ArrowArray
  schemaState : ForeignNodeState
  arrayState : ForeignNodeState

/-- Function `importFromArrowAsOwner` (Bridge.cpp lines 533-573).  The heap copies are
made from the caller's structs before the import runs, so each copy's
`release` pointer equals the caller's original one; after a successful import
the caller's `release` pointers are nulled and each shared pointer's use
count is the number of buffer views created (one for the values buffer, plus
one for the nulls buffer when present).  No release callback has been
invoked yet. -/
def importFromArrowAsOwner (arrowSchema : ArrowSchema)
    (arrowArray : ArrowArray) : Except VeloxError OwnerImportResult :=
  match importFromArrowImpl arrowSchema arrowArray .owner with
  | .error e => .error e
  | .ok vec =>
    let views := (if vec.nulls.isSome then 1 else 0) + 1
    .ok { vec := vec
          schemaOut := arrowSchema.clearRelease
          arrayOut := arrowArray.clearRelease
          schemaState := ⟨views, true, arrowSchema.release, 0⟩
          arrayState := ⟨views, true, arrowArray.release, 0⟩ }

/-! ## Helper lemmas -/

@[simp] theorem ArrowSchema.setName_name (s : ArrowSchema) (nm : String) :
    (s.setName nm).name = some nm := by
  cases s with | mk f n m fl ch d r p => rfl

@[simp] theorem ArrowSchema.setName_format (s : ArrowSchema) (nm : String) :
    (s.setName nm).format = s.format := by
  cases s with | mk f n m fl ch d r p => rfl

@[simp] theorem ArrowSchema.setName_children (s : ArrowSchema) (nm : String) :
    (s.setName nm).children = s.children := by
  cases s with | mk f n m fl ch d r p => rfl

@[simp] theorem ArrowSchema.setName_release (s : ArrowSchema) (nm : String) :
    (s.setName nm).release = s.release := by
  cases s with | mk f n m fl ch d r p => rfl

@[simp] theorem ArrowSchema.setName_privateData (s : ArrowSchema)
    (nm : String) : (s.setName nm).privateData = s.privateData := by
  cases s with | mk f n m fl ch d r p => rfl

@[simp] theorem ArrowSchema.withBuilt_release (s : ArrowSchema)
    (kids : List ArrowSchema) : (s.withBuilt kids).release = true := by
  cases s with | mk f n m fl ch d r p => rfl

@[simp] theorem ArrowSchema.withBuilt_privateData (s : ArrowSchema)
    (kids : List ArrowSchema) : (s.withBuilt kids).privateData = true := by
  cases s with | mk f n m fl ch d r p => rfl

@[simp] theorem ArrowSchema.withBuilt_children (s : ArrowSchema)
    (kids : List ArrowSchema) : (s.withBuilt kids).children = kids.map some := by
  cases s with | mk f n m fl ch d r p => rfl

@[simp] theorem ArrowSchema.withBuilt_format (s : ArrowSchema)
    (kids : List ArrowSchema) : (s.withBuilt kids).format = s.format := by
  cases s with | mk f n m fl ch d r p => rfl

@[simp] theorem ArrowSchema.withExportBase_format (s : ArrowSchema)
    (fmt : List Char) : (s.withExportBase fmt).format = some fmt := by
  cases s with | mk f n m fl ch d r p => rfl

@[simp] theorem ArrowSchema.withExportBase_release (s : ArrowSchema)
    (fmt : List Char) : (s.withExportBase fmt).release = s.release := by
  cases s with | mk f n m fl ch d r p => rfl

@[simp] theorem ArrowSchema.withExportBase_privateData (s : ArrowSchema)
    (fmt : List Char) : (s.withExportBase fmt).privateData = s.privateData := by
  cases s with | mk f n m fl ch d r p => rfl

@[simp] theorem ArrowSchema.onFailedExport_release (s : ArrowSchema) :
    s.onFailedExport.release = s.release := by
  cases s with | mk f n m fl ch d r p => rfl

@[simp] theorem ArrowSchema.onFailedExport_privateData (s : ArrowSchema) :
    s.onFailedExport.privateData = s.privateData := by
  cases s with | mk f n m fl ch d r p => rfl

/-- After a release call the node's `release` pointer is always null
(it either was already null, or the call just cleared it). -/
theorem bridgeSchemaRelease_release (s : ArrowSchema) :
    (bridgeSchemaRelease s).release = false := by
  cases s with
  | mk f n m fl ch d r p => cases r <;> simp [bridgeSchemaRelease]

/-- Calling the release callback on an already-released schema node is a
no-op (`if (!arrowSchema || !arrowSchema->release) return;`). -/
theorem bridgeSchemaRelease_noop (s : ArrowSchema) (h : s.release = false) :
    bridgeSchemaRelease s = s := by
  cases s with
  | mk f n m fl ch d r p =>
    simp at h
    subst h
    simp [bridgeSchemaRelease]

/-- Releasing an unreleased schema node clears `private_data`
(the bridge holder is destroyed). -/
theorem bridgeSchemaRelease_privateData (s : ArrowSchema)
    (h : s.release = true) : (bridgeSchemaRelease s).privateData = false := by
  cases s with
  | mk f n m fl ch d r p =>
    simp at h
    subst h
    simp [bridgeSchemaRelease]

/-- A second release call is a no-op. -/
theorem bridgeSchemaRelease_idem (s : ArrowSchema) :
    bridgeSchemaRelease (bridgeSchemaRelease s) = bridgeSchemaRelease s :=
  bridgeSchemaRelease_noop _ (bridgeSchemaRelease_release s)

/-- After a release call the array node's `release` pointer is always null. -/
theorem bridgeRelease_release (a : ArrowArray) :
    (bridgeRelease a).release = false := by
  cases a with
  | mk len nc off nb b0 b1 nch ch d r p => cases r <;> simp [bridgeRelease]

/-- Calling the release callback on an already-released array node is a
no-op. -/
theorem bridgeRelease_noop (a : ArrowArray) (h : a.release = false) :
    bridgeRelease a = a := by
  cases a with
  | mk len nc off nb b0 b1 nch ch d r p =>
    simp at h
    subst h
    simp [bridgeRelease]

/-- Releasing an unreleased array node clears `private_data`. -/
theorem bridgeRelease_privateData (a : ArrowArray) (h : a.release = true) :
    (bridgeRelease a).privateData = false := by
  cases a with
  | mk len nc off nb b0 b1 nch ch d r p =>
    simp at h
    subst h
    simp [bridgeRelease]

/-- A second release call on an array node is a no-op. -/
theorem bridgeRelease_idem (a : ArrowArray) :
    bridgeRelease (bridgeRelease a) = bridgeRelease a :=
  bridgeRelease_noop _ (bridgeRelease_release a)

/-- The scalar kinds of the bridge's schema tables (the eleven kinds the
spec calls "supported scalar kinds"). -/
def isSupportedScalarKind : VeloxType → Bool
  | .BOOLEAN | .TINYINT | .SMALLINT | .INTEGER | .BIGINT | .REAL | .DOUBLE
  | .VARCHAR | .VARBINARY | .TIMESTAMP | .DATE => true
  | _ => false

/-- Unfolding equation of `exportToArrowSchema` at a scalar kind: no
children, success. -/
theorem exportToArrowSchema_scalar (t : VeloxType) (dest : ArrowSchema)
    (h : isSupportedScalarKind t = true) :
    exportToArrowSchema t dest =
      ⟨(dest.withExportBase ((exportArrowFormatStr t).getD [])).withBuilt [],
        none, []⟩ := by
  cases t <;> first | rfl | simp [isSupportedScalarKind] at h

/-- Unfolding equation of `exportToArrowSchema` at an unmapped kind:
`exportArrowFormatStr` throws before any field of the caller's struct is
written. -/
theorem exportToArrowSchema_UNKNOWN (dest : ArrowSchema) :
    exportToArrowSchema .UNKNOWN dest =
      ⟨dest, some .typeExportNotImplemented, []⟩ := rfl

/-- Unfolding equation of `exportToArrowSchema` at an array type. -/
theorem exportToArrowSchema_ARRAY (e : VeloxType) (dest : ArrowSchema) :
    exportToArrowSchema (.ARRAY e) dest =
      (match (exportToArrowSchema e zeroArrowSchema).err with
       | some er =>
         ⟨(dest.withExportBase ['+', 'L']).onFailedExport, some er,
           (exportToArrowSchema e zeroArrowSchema).released⟩
       | none =>
         ⟨(dest.withExportBase ['+', 'L']).withBuilt
             [(exportToArrowSchema e zeroArrowSchema).node], none, []⟩) := rfl

/-- Unfolding equation of `exportToArrowSchema` at a map type. -/
theorem exportToArrowSchema_MAP (k v : VeloxType) (dest : ArrowSchema) :
    exportToArrowSchema (.MAP k v) dest =
      (match (exportToArrowSchema k zeroArrowSchema).err with
       | some er =>
         ⟨(dest.withExportBase ['+', 'm']).onFailedExport, some er,
           (exportToArrowSchema k zeroArrowSchema).released⟩
       | none =>
         match (exportToArrowSchema v zeroArrowSchema).err with
         | some er =>
           ⟨(dest.withExportBase ['+', 'm']).onFailedExport, some er,
             (exportToArrowSchema v zeroArrowSchema).released ++
               [bridgeSchemaRelease (exportToArrowSchema k zeroArrowSchema).node]⟩
         | none =>
           ⟨(dest.withExportBase ['+', 'm']).withBuilt
               [(exportToArrowSchema k zeroArrowSchema).node,
                 (exportToArrowSchema v zeroArrowSchema).node], none, []⟩) := rfl

/-- Unfolding equation of `exportToArrowSchema` at a row type. -/
theorem exportToArrowSchema_ROW (fields : List (String × VeloxType))
    (dest : ArrowSchema) :
    exportToArrowSchema (.ROW fields) dest =
      (match exportRowChildren fields [] with
       | .fail e rel =>
         ⟨(dest.withExportBase ['+', 's']).onFailedExport, some e, rel⟩
       | .ok kids =>
         ⟨(dest.withExportBase ['+', 's']).withBuilt kids, none, []⟩) := rfl

/-- Unfolding equation of the row-children loop: empty field list. -/
theorem exportRowChildren_nil (built : List ArrowSchema) :
    exportRowChildren [] built = .ok built := rfl

/-- Unfolding equation of the row-children loop: one more field. -/
theorem exportRowChildren_cons (nm : String) (ct : VeloxType)
    (rest : List (String × VeloxType)) (built : List ArrowSchema) :
    exportRowChildren ((nm, ct) :: rest) built =
      (match (exportToArrowSchema ct zeroArrowSchema).err with
       | some e =>
         .fail e ((exportToArrowSchema ct zeroArrowSchema).released ++
           built.map bridgeSchemaRelease)
       | none =>
         exportRowChildren rest
           (built ++ [(exportToArrowSchema ct zeroArrowSchema).node.setName nm])) :=
  rfl

/-- A successful schema export always hands back a node with `release` and
`private_data` set (Bridge.cpp lines 299-300 run on every success path). -/
theorem exportToArrowSchema_ok_flags (t : VeloxType) (dest : ArrowSchema)
    (h : (exportToArrowSchema t dest).err = none) :
    (exportToArrowSchema t dest).node.release = true ∧
    (exportToArrowSchema t dest).node.privateData = true := by
  cases t with
  | ARRAY e =>
    rw [exportToArrowSchema_ARRAY] at h ⊢
    cases hc : (exportToArrowSchema e zeroArrowSchema).err with
    | some e' => rw [hc] at h; simp at h
    | none => simp
  | MAP k v =>
    rw [exportToArrowSchema_MAP] at h ⊢
    cases hk : (exportToArrowSchema k zeroArrowSchema).err with
    | some e' => rw [hk] at h; simp at h
    | none =>
      rw [hk] at h
      cases hv : (exportToArrowSchema v zeroArrowSchema).err with
      | some e' => rw [hv] at h; simp at h
      | none => simp
  | ROW fields =>
    rw [exportToArrowSchema_ROW] at h ⊢
    cases hr : exportRowChildren fields [] with
    | fail e rel => rw [hr] at h; simp at h
    | ok kids => simp
  | UNKNOWN => rw [exportToArrowSchema_UNKNOWN] at h; simp at h
  | BOOLEAN => simp [exportToArrowSchema_scalar .BOOLEAN dest rfl]
  | TINYINT => simp [exportToArrowSchema_scalar .TINYINT dest rfl]
  | SMALLINT => simp [exportToArrowSchema_scalar .SMALLINT dest rfl]
  | INTEGER => simp [exportToArrowSchema_scalar .INTEGER dest rfl]
  | BIGINT => simp [exportToArrowSchema_scalar .BIGINT dest rfl]
  | REAL => simp [exportToArrowSchema_scalar .REAL dest rfl]
  | DOUBLE => simp [exportToArrowSchema_scalar .DOUBLE dest rfl]
  | VARCHAR => simp [exportToArrowSchema_scalar .VARCHAR dest rfl]
  | VARBINARY => simp [exportToArrowSchema_scalar .VARBINARY dest rfl]
  | TIMESTAMP => simp [exportToArrowSchema_scalar .TIMESTAMP dest rfl]
  | DATE => simp [exportToArrowSchema_scalar .DATE dest rfl]

/-- A successful array export hands back a node with `release` and
`private_data` set (Bridge.cpp lines 202 and 233). -/
theorem exportToArrowArray_ok_flags (v : VeloxVector) (arr : ArrowArray)
    (h : exportToArrowArray v = .ok arr) :
    arr.release = true ∧ arr.privateData = true := by
  unfold exportToArrowArray at h
  split at h
  · split at h
    · simp at h
    · rename_i vals hvals
      simp only [Except.ok.injEq] at h
      subst h
      simp
  · simp at h

/-- A scalar kind exports with no error. -/
theorem exportToArrowSchema_scalar_ok (t : VeloxType)
    (h : isSupportedScalarKind t = true) :
    (exportToArrowSchema t zeroArrowSchema).err = none := by
  rw [exportToArrowSchema_scalar t _ h]

/-- Importing the node exported for a scalar kind (with any name set on it)
gives the kind back: the schema importer dispatches on `format` only. -/
theorem importFromArrow_scalar_setName (t : VeloxType)
    (h : isSupportedScalarKind t = true) (nm : String) :
    importFromArrow ((exportToArrowSchema t zeroArrowSchema).node.setName nm) =
      .ok t := by
  cases t <;> first | rfl | simp [isSupportedScalarKind] at h

/-- Importing the node exported for a scalar kind gives the kind back. -/
theorem importFromArrow_scalar (t : VeloxType)
    (h : isSupportedScalarKind t = true) :
    importFromArrow (exportToArrowSchema t zeroArrowSchema).node = .ok t := by
  cases t <;> first | rfl | simp [isSupportedScalarKind] at h

/-- Row-children loop, stepping over a child that exports successfully. -/
theorem exportRowChildren_cons_ok (nm : String) (ct : VeloxType)
    (rest : List (String × VeloxType)) (built : List ArrowSchema)
    (h : (exportToArrowSchema ct zeroArrowSchema).err = none) :
    exportRowChildren ((nm, ct) :: rest) built =
      exportRowChildren rest
        (built ++ [(exportToArrowSchema ct zeroArrowSchema).node.setName nm]) := by
  rw [exportRowChildren_cons, h]

/-- Row-children loop, hitting a child whose export throws. -/
theorem exportRowChildren_cons_fail (nm : String) (ct : VeloxType)
    (rest : List (String × VeloxType)) (built : List ArrowSchema)
    (e : VeloxError) (h : (exportToArrowSchema ct zeroArrowSchema).err = some e) :
    exportRowChildren ((nm, ct) :: rest) built =
      .fail e ((exportToArrowSchema ct zeroArrowSchema).released ++
        built.map bridgeSchemaRelease) := by
  rw [exportRowChildren_cons, h]

/-- When every child exports successfully, the loop returns the accumulated
prefix followed by the per-field exported nodes (with names set). -/
theorem exportRowChildren_ok (fields : List (String × VeloxType))
    (built : List ArrowSchema)
    (h : ∀ p ∈ fields, (exportToArrowSchema p.2 zeroArrowSchema).err = none) :
    exportRowChildren fields built =
      .ok (built ++ fields.map (fun p =>
        (exportToArrowSchema p.2 zeroArrowSchema).node.setName p.1)) := by
  induction fields generalizing built with
  | nil => simp [exportRowChildren_nil]
  | cons q qs ih =>
    obtain ⟨qn, qt⟩ := q
    rw [exportRowChildren_cons_ok _ _ _ _ (h _ (List.mem_cons_self _ _))]
    rw [ih _ (fun p hp => h p (List.mem_cons_of_mem _ hp))]
    simp

/-- Unfolding equation: importing a struct-format node collects the
children. -/
theorem importFromArrow_struct (nm : Option String) (meta : Option String)
    (fl : Int) (ch : List (Option ArrowSchema)) (d : Option ArrowSchema)
    (r p : Bool) :
    importFromArrow (.mk (some ['+', 's']) nm meta fl ch d r p) =
      (importRowChildren ch).map .ROW := rfl

/-- Unfolding equation of the struct-children import loop. -/
theorem importRowChildren_cons (c : ArrowSchema)
    (rest : List (Option ArrowSchema)) :
    importRowChildren (some c :: rest) =
      (importFromArrow c).bind (fun t =>
        (importRowChildren rest).bind (fun restPairs =>
          .ok ((c.name.getD "", t) :: restPairs))) := rfl

/-- Importing back the children exported for a list of scalar fields
reproduces the fields: order, names and kinds. -/
theorem importRowChildren_roundtrip (fields : List (String × VeloxType))
    (h : ∀ p ∈ fields, isSupportedScalarKind p.2 = true) :
    importRowChildren ((fields.map (fun p =>
      (exportToArrowSchema p.2 zeroArrowSchema).node.setName p.1)).map some) =
      .ok fields := by
  induction fields with
  | nil => rfl
  | cons q qs ih =>
    obtain ⟨qn, qt⟩ := q
    have hq := h (qn, qt) (List.mem_cons_self _ _)
    simp only [List.map_cons]
    rw [importRowChildren_cons,
      importFromArrow_scalar_setName qt hq qn,
      ih (fun p hp => h p (List.mem_cons_of_mem _ hp))]
    simp [Except.bind]

/-! ## Claim C1 -/

/-- Claim C1 (Schema round-trip): for every supported scalar kind `t`,
exporting the schema for `t` succeeds and importing the exported node yields
`t` again; and for every row type whose fields are of supported scalar
kinds, exporting then importing reproduces the field order, the field names,
and the child kinds exactly. -/
theorem C1_schema_roundtrip :
    (∀ t : VeloxType, isSupportedScalarKind t = true →
      (exportToArrowSchema t zeroArrowSchema).err = none ∧
      importFromArrow (exportToArrowSchema t zeroArrowSchema).node = .ok t) ∧
    (∀ fields : List (String × VeloxType),
      (∀ p ∈ fields, isSupportedScalarKind p.2 = true) →
      (exportToArrowSchema (.ROW fields) zeroArrowSchema).err = none ∧
      importFromArrow (exportToArrowSchema (.ROW fields) zeroArrowSchema).node =
        .ok (.ROW fields)) := by
  constructor
  · intro t ht
    exact ⟨exportToArrowSchema_scalar_ok t ht, importFromArrow_scalar t ht⟩
  · intro fields h
    have hch : ∀ p ∈ fields,
        (exportToArrowSchema p.2 zeroArrowSchema).err = none :=
      fun p hp => exportToArrowSchema_scalar_ok p.2 (h p hp)
    have hloop := exportRowChildren_ok fields [] hch
    rw [exportToArrowSchema_ROW, hloop]
    refine ⟨rfl, ?_⟩
    show importFromArrow
      ((zeroArrowSchema.withExportBase ['+', 's']).withBuilt
        ([] ++ fields.map (fun p =>
          (exportToArrowSchema p.2 zeroArrowSchema).node.setName p.1))) =
      .ok (.ROW fields)
    rw [List.nil_append]
    show importFromArrow
      (.mk (some ['+', 's']) none none kArrowFlagNullable
        ((fields.map (fun p =>
          (exportToArrowSchema p.2 zeroArrowSchema).node.setName p.1)).map some)
        none true true) = .ok (.ROW fields)
    rw [importFromArrow_struct, importRowChildren_roundtrip fields h]
    rfl

/-- Witness for C1 at a concrete scalar kind and a concrete two-field row
type. -/
theorem C1_schema_roundtrip_witness :
    ((exportToArrowSchema .INTEGER zeroArrowSchema).err = none ∧
      importFromArrow (exportToArrowSchema .INTEGER zeroArrowSchema).node =
        .ok .INTEGER) ∧
    ((exportToArrowSchema (.ROW [("a", .INTEGER), ("b", .VARCHAR)])
        zeroArrowSchema).err = none ∧
      importFromArrow (exportToArrowSchema (.ROW [("a", .INTEGER), ("b", .VARCHAR)])
        zeroArrowSchema).node = .ok (.ROW [("a", .INTEGER), ("b", .VARCHAR)])) :=
  ⟨C1_schema_roundtrip.1 .INTEGER rfl,
    C1_schema_roundtrip.2 [("a", .INTEGER), ("b", .VARCHAR)] (by decide)⟩

/-! ## Claim C2 -/

/-- Claim C2 (Release idempotence): for any schema or array node produced by
export, invoking its release callback a second time is a no-op, invoking it
on a node whose release pointer is already null is a no-op, and after the
first invocation the node satisfies `release == null` and
`private_data == null`. -/
theorem C2_release_idempotence :
    (∀ s : ArrowSchema, s.release = false → bridgeSchemaRelease s = s) ∧
    (∀ a : ArrowArray, a.release = false → bridgeRelease a = a) ∧
    (∀ (t : VeloxType) (dest : ArrowSchema),
      (exportToArrowSchema t dest).err = none →
      (bridgeSchemaRelease (exportToArrowSchema t dest).node).release = false ∧
      (bridgeSchemaRelease (exportToArrowSchema t dest).node).privateData =
        false ∧
      bridgeSchemaRelease
          (bridgeSchemaRelease (exportToArrowSchema t dest).node) =
        bridgeSchemaRelease (exportToArrowSchema t dest).node) ∧
    (∀ (v : VeloxVector) (arr : ArrowArray), exportToArrowArray v = .ok arr →
      (bridgeRelease arr).release = false ∧
      (bridgeRelease arr).privateData = false ∧
      bridgeRelease (bridgeRelease arr) = bridgeRelease arr) := by
  refine ⟨bridgeSchemaRelease_noop, bridgeRelease_noop, ?_, ?_⟩
  · intro t dest h
    exact ⟨bridgeSchemaRelease_release _,
      bridgeSchemaRelease_privateData _ (exportToArrowSchema_ok_flags t dest h).1,
      bridgeSchemaRelease_idem _⟩
  · intro v arr h
    exact ⟨bridgeRelease_release _,
      bridgeRelease_privateData _ (exportToArrowArray_ok_flags v arr h).1,
      bridgeRelease_idem _⟩

/-- Witness for C2: a released schema node, a released array node, the
exported schema of `INTEGER`, and the exported array of a flat int32
vector. -/
theorem C2_release_idempotence_witness :
    (bridgeSchemaRelease (.mk none none none 0 [] none false true) =
      .mk none none none 0 [] none false true) ∧
    (bridgeRelease (.mk 0 0 0 0 none none 0 none none false true) =
      .mk 0 0 0 0 none none 0 none none false true) ∧
    ((bridgeSchemaRelease
        (exportToArrowSchema .INTEGER zeroArrowSchema).node).release = false ∧
      (bridgeSchemaRelease
        (exportToArrowSchema .INTEGER zeroArrowSchema).node).privateData =
          false ∧
      bridgeSchemaRelease (bridgeSchemaRelease
          (exportToArrowSchema .INTEGER zeroArrowSchema).node) =
        bridgeSchemaRelease (exportToArrowSchema .INTEGER zeroArrowSchema).node) ∧
    ((bridgeRelease
        (.mk 3 0 0 2 none (some 500) 0 none none true true)).release = false ∧
      (bridgeRelease
        (.mk 3 0 0 2 none (some 500) 0 none none true true)).privateData =
          false ∧
      bridgeRelease (bridgeRelease
          (.mk 3 0 0 2 none (some 500) 0 none none true true)) =
        bridgeRelease (.mk 3 0 0 2 none (some 500) 0 none none true true)) :=
  ⟨C2_release_idempotence.1 _ rfl,
    C2_release_idempotence.2.1 _ rfl,
    C2_release_idempotence.2.2.1 .INTEGER zeroArrowSchema rfl,
    C2_release_idempotence.2.2.2 ⟨.INTEGER, .FLAT, 3, some 0, none, some 500⟩
      _ rfl⟩

/-! ## Claim C3 -/

/-- If the children before index K export fine and the K-th child's kind has
no Arrow mapping, the child loop fails with the unsupported-feature error
and releases exactly the already-linked children `0..K-1`, in index order,
after the failing child's own (empty) rollback. -/
theorem exportRowChildren_fail (pre : List (String × VeloxType))
    (nm : String) (badT : VeloxType) (rest : List (String × VeloxType))
    (built : List ArrowSchema)
    (hpre : ∀ p ∈ pre, (exportToArrowSchema p.2 zeroArrowSchema).err = none)
    (hbad : exportArrowFormatStr badT = none) :
    exportRowChildren (pre ++ (nm, badT) :: rest) built =
      .fail .typeExportNotImplemented
        ((built ++ pre.map (fun p =>
            (exportToArrowSchema p.2 zeroArrowSchema).node.setName p.1)).map
          bridgeSchemaRelease) := by
  induction pre generalizing built with
  | nil =>
    have hb : (exportToArrowSchema badT zeroArrowSchema).err =
        some .typeExportNotImplemented := by
      cases badT <;>
        first | rfl | (exfalso; simp [exportArrowFormatStr] at hbad)
    have hr : (exportToArrowSchema badT zeroArrowSchema).released = [] := by
      cases badT <;>
        first | rfl | (exfalso; simp [exportArrowFormatStr] at hbad)
    rw [List.nil_append, exportRowChildren_cons_fail nm badT rest built _ hb, hr]
    simp
  | cons q qs ih =>
    obtain ⟨qn, qt⟩ := q
    rw [List.cons_append,
      exportRowChildren_cons_ok _ _ _ _ (hpre _ (List.mem_cons_self _ _)),
      ih _ (fun p hp => hpre p (List.mem_cons_of_mem _ hp))]
    simp

/-- Claim C3 (Rollback on failed schema export): exporting a row type whose
K-th child kind is unsupported (the first K children exporting fine) fails
with the unsupported-feature error; the rollback releases exactly the
already-built children `0..K-1`, each ending with `release == null` and
`private_data == null`; and `release`/`private_data` are never set on the
parent node being exported. -/
theorem C3_rollback_on_failed_export
    (pre : List (String × VeloxType)) (nm : String) (badT : VeloxType)
    (rest : List (String × VeloxType)) (dest : ArrowSchema)
    (hpre : ∀ p ∈ pre, (exportToArrowSchema p.2 zeroArrowSchema).err = none)
    (hbad : exportArrowFormatStr badT = none) :
    (exportToArrowSchema (.ROW (pre ++ (nm, badT) :: rest)) dest).err =
      some .typeExportNotImplemented ∧
    (exportToArrowSchema (.ROW (pre ++ (nm, badT) :: rest)) dest).released =
      pre.map (fun p => bridgeSchemaRelease
        ((exportToArrowSchema p.2 zeroArrowSchema).node.setName p.1)) ∧
    (∀ c ∈ (exportToArrowSchema (.ROW (pre ++ (nm, badT) :: rest)) dest).released,
      c.release = false ∧ c.privateData = false) ∧
    (exportToArrowSchema (.ROW (pre ++ (nm, badT) :: rest)) dest).node.release =
      dest.release ∧
    (exportToArrowSchema
        (.ROW (pre ++ (nm, badT) :: rest)) dest).node.privateData =
      dest.privateData := by
  have hloop := exportRowChildren_fail pre nm badT rest [] hpre hbad
  rw [exportToArrowSchema_ROW, hloop]
  simp only [List.nil_append]
  refine ⟨trivial, by simp, ?_, by simp, by simp⟩
  intro c hc
  rw [List.mem_map] at hc
  obtain ⟨n0, hn0, rfl⟩ := hc
  rw [List.mem_map] at hn0
  obtain ⟨p, hp, rfl⟩ := hn0
  refine ⟨bridgeSchemaRelease_release _, bridgeSchemaRelease_privateData _ ?_⟩
  rw [ArrowSchema.setName_release]
  exact (exportToArrowSchema_ok_flags p.2 zeroArrowSchema (hpre p hp)).1

/-- Witness for C3: a row whose second child has an unmapped kind, exported
into a caller struct whose `release`/`private_data` words are non-null
garbage (showing they are left untouched). -/
theorem C3_rollback_on_failed_export_witness :
    ((exportToArrowSchema
        (.ROW ([("a", .INTEGER)] ++ ("bad", .UNKNOWN) :: [("z", .DOUBLE)]))
        (.mk none none none 7 [] none true true)).err =
      some .typeExportNotImplemented ∧
    (exportToArrowSchema
        (.ROW ([("a", .INTEGER)] ++ ("bad", .UNKNOWN) :: [("z", .DOUBLE)]))
        (.mk none none none 7 [] none true true)).released =
      [("a", VeloxType.INTEGER)].map (fun p => bridgeSchemaRelease
        ((exportToArrowSchema p.2 zeroArrowSchema).node.setName p.1)) ∧
    (∀ c ∈ (exportToArrowSchema
        (.ROW ([("a", .INTEGER)] ++ ("bad", .UNKNOWN) :: [("z", .DOUBLE)]))
        (.mk none none none 7 [] none true true)).released,
      c.release = false ∧ c.privateData = false) ∧
    (exportToArrowSchema
        (.ROW ([("a", .INTEGER)] ++ ("bad", .UNKNOWN) :: [("z", .DOUBLE)]))
        (.mk none none none 7 [] none true true)).node.release =
      (ArrowSchema.mk none none none 7 [] none true true).release ∧
    (exportToArrowSchema
        (.ROW ([("a", .INTEGER)] ++ ("bad", .UNKNOWN) :: [("z", .DOUBLE)]))
        (.mk none none none 7 [] none true true)).node.privateData =
      (ArrowSchema.mk none none none 7 [] none true true).privateData) :=
  C3_rollback_on_failed_export [("a", .INTEGER)] "bad" .UNKNOWN
    [("z", .DOUBLE)] (.mk none none none 7 [] none true true)
    (by decide) rfl

/-! ## Import-side helper lemmas -/

/-- Whether an import attempt succeeded. -/
def isOkResult {α : Type} : Except VeloxError α → Bool
  | .ok _ => true
  | .error _ => false

@[simp] theorem isOkResult_ok {α : Type} (v : α) :
    isOkResult (.ok v) = true := rfl

@[simp] theorem isOkResult_error {α : Type} (e : VeloxError) :
    isOkResult (.error e : Except VeloxError α) = false := rfl

@[simp] theorem wrapInBufferView_ptr (m : BufferReleaser) (b : Option Nat)
    (len : Nat) : (wrapInBufferView m b len).ptr = b := by
  cases m <;> rfl

@[simp] theorem wrapInBufferView_byteSize (m : BufferReleaser) (b : Option Nat)
    (len : Nat) : (wrapInBufferView m b len).byteSize = len := by
  cases m <;> rfl

/-- Everything a successful `importFromArrowImpl` guarantees about its
inputs and its result: all preconditions held, and the result is the flat
vector over the two zero-copy views. -/
theorem importFromArrowImpl_ok_inv {s : ArrowSchema} {a : ArrowArray}
    {m : BufferReleaser} {v : FlatVector}
    (h : importFromArrowImpl s a m = .ok v) :
    s.release = true ∧ a.release = true ∧ a.dictionary = none ∧
    a.n_children = 0 ∧ a.children = none ∧ a.offset = 0 ∧ 0 ≤ a.length ∧
    a.n_buffers = 2 ∧
    ∃ t, importFromArrow s = .ok t ∧ t.isPrimitiveType = true ∧
      ((a.null_count ≠ 0 ∧ a.buffers0.isSome = true ∧
          v = createFlatVector t
            (some (wrapInBufferView m a.buffers0 (nbytes a.length)))
            a.length
            (wrapInBufferView m a.buffers1 (a.length.toNat * t.cppSizeInBytes))
            a.null_count) ∨
        (a.null_count = 0 ∧ a.buffers0 = none ∧
          v = createFlatVector t none a.length
            (wrapInBufferView m a.buffers1 (a.length.toNat * t.cppSizeInBytes))
            a.null_count)) := by
  unfold importFromArrowImpl at h
  split at h
  case isTrue => simp at h
  case isFalse h1 =>
  split at h
  case isTrue => simp at h
  case isFalse h2 =>
  split at h
  case isTrue => simp at h
  case isFalse h3 =>
  split at h
  case isTrue => simp at h
  case isFalse h4 =>
  split at h
  case isTrue => simp at h
  case isFalse h5 =>
  split at h
  case isTrue => simp at h
  case isFalse h6 =>
  split at h
  case h_1 => simp at h
  case h_2 t ht =>
  split at h
  case isTrue => simp at h
  case isFalse h7 =>
  split at h
  case h_1 => simp at h
  case h_2 nulls hnulls =>
  split at h
  case isTrue => simp at h
  case isFalse h8 =>
  simp only [Except.ok.injEq] at h
  subst h
  rw [Bool.not_eq_false] at h1 h2
  rw [not_not] at h4
  obtain ⟨h4a, h4b⟩ := h4
  refine ⟨h1, h2, by simpa using h3, h4a,
    by simpa [Option.isNone_iff_eq_none] using h4b, by omega, by omega,
    by omega, t, ht, by simpa using h7, ?_⟩
  · split at hnulls
    case isTrue hnc =>
      split at hnulls
      case h_1 => simp at hnulls
      case h_2 p hp =>
        simp only [Except.ok.injEq] at hnulls
        subst hnulls
        exact Or.inl ⟨hnc, by simp [hp], rfl⟩
    case isFalse hnc =>
      split at hnulls
      case isTrue => simp at hnulls
      case isFalse hb0 =>
        simp only [Except.ok.injEq] at hnulls
        subst hnulls
        exact Or.inr ⟨by omega, by simpa using hb0, rfl⟩

/-- Forward evaluation of `importFromArrowImpl` when every check passes and
the array carries a nulls bitmap (`null_count != 0`). -/
theorem importFromArrowImpl_ok_withNulls (s : ArrowSchema) (a : ArrowArray)
    (m : BufferReleaser) (t : VeloxType) (p : Nat)
    (h1 : s.release = true) (h2 : a.release = true)
    (h3 : a.dictionary = none) (h4 : a.n_children = 0) (h5 : a.children = none)
    (h6 : a.offset = 0) (h7 : 0 ≤ a.length)
    (h8 : importFromArrow s = .ok t) (h9 : t.isPrimitiveType = true)
    (h10 : a.n_buffers = 2) (hnc : a.null_count ≠ 0)
    (hb0 : a.buffers0 = some p) :
    importFromArrowImpl s a m = .ok (createFlatVector t
      (some (wrapInBufferView m a.buffers0 (nbytes a.length)))
      a.length
      (wrapInBufferView m a.buffers1 (a.length.toNat * t.cppSizeInBytes))
      a.null_count) := by
  unfold importFromArrowImpl
  rw [h1, h2, h3, h4, h5, h6, h8, h10, hb0]
  simp [hnc, h9, not_lt.mpr h7]

/-- Forward evaluation of `importFromArrowImpl` when every check passes and
the array declares no nulls (`null_count == 0`, null bitmap pointer null). -/
theorem importFromArrowImpl_ok_noNulls (s : ArrowSchema) (a : ArrowArray)
    (m : BufferReleaser) (t : VeloxType)
    (h1 : s.release = true) (h2 : a.release = true)
    (h3 : a.dictionary = none) (h4 : a.n_children = 0) (h5 : a.children = none)
    (h6 : a.offset = 0) (h7 : 0 ≤ a.length)
    (h8 : importFromArrow s = .ok t) (h9 : t.isPrimitiveType = true)
    (h10 : a.n_buffers = 2) (hnc : a.null_count = 0)
    (hb0 : a.buffers0 = none) :
    importFromArrowImpl s a m = .ok (createFlatVector t none a.length
      (wrapInBufferView m a.buffers1 (a.length.toNat * t.cppSizeInBytes))
      a.null_count) := by
  unfold importFromArrowImpl
  rw [h1, h2, h3, h4, h5, h6, h8, h10, hb0]
  simp [hnc, h9, not_lt.mpr h7]

@[simp] theorem ArrowSchema.clearRelease_release (s : ArrowSchema) :
    s.clearRelease.release = false := by
  cases s with | mk f n m fl ch d r p => rfl

@[simp] theorem ArrowSchema.clearRelease_privateData (s : ArrowSchema) :
    s.clearRelease.privateData = s.privateData := by
  cases s with | mk f n m fl ch d r p => rfl

@[simp] theorem ArrowArray.clearRelease_release_arr (a : ArrowArray) :
    a.clearRelease.release = false := by
  cases a with | mk len nc off nb b0 b1 nch ch d r p => rfl

@[simp] theorem ArrowArray.clearRelease_privateData_arr (a : ArrowArray) :
    a.clearRelease.privateData = a.privateData := by
  cases a with | mk len nc off nb b0 b1 nch ch d r p => rfl

/-! ## Claim C4 (corrected) -/

/-- Counterexample to claim C4 as stated: a successful owner-mode import of
a foreign schema/array pair whose `private_data` pointers are non-null
leaves `release == null` on the caller's structs but leaves `private_data`
non-null — the code (Bridge.cpp lines 569-570) nulls only the `release`
pointers, so the "released state as the data model defines it"
(`release == null ∧ private_data == null`) does not hold. -/
theorem C4_owner_marking_counterexample :
    (importFromArrowAsOwner (.mk (some ['i']) none none 2 [] none true true)
        (.mk 4 (-1) 0 2 (some 100) (some 200) 0 none none true true)).map
      (fun r => (r.schemaOut.release, r.schemaOut.privateData,
        r.arrayOut.release, r.arrayOut.privateData)) =
    .ok (false, true, false, true) := rfl

/-- Claim C4 as amended: after a successful `importFromArrowAsOwner`, the
caller's schema and array structs both have `release == null` (marking them
released to the caller), their `private_data` fields are left unchanged
rather than cleared, and the foreign release callbacks have not been invoked
yet. -/
theorem C4_owner_marking_amended (s : ArrowSchema) (a : ArrowArray)
    (r : OwnerImportResult) (h : importFromArrowAsOwner s a = .ok r) :
    r.schemaOut.release = false ∧ r.arrayOut.release = false ∧
    r.schemaOut.privateData = s.privateData ∧
    r.arrayOut.privateData = a.privateData ∧
    r.schemaState.releaseCalls = 0 ∧ r.arrayState.releaseCalls = 0 := by
  unfold importFromArrowAsOwner at h
  split at h
  · simp at h
  · simp only [Except.ok.injEq] at h
    subst h
    simp

/-- Witness for the amended C4 at a concrete import. -/
theorem C4_owner_marking_amended_witness :
    ∃ r, importFromArrowAsOwner
        (.mk (some ['i']) none none 2 [] none true true)
        (.mk 4 (-1) 0 2 (some 100) (some 200) 0 none none true true) = .ok r ∧
      (r.schemaOut.release = false ∧ r.arrayOut.release = false ∧
        r.schemaOut.privateData =
          (ArrowSchema.mk (some ['i']) none none 2 [] none true true).privateData ∧
        r.arrayOut.privateData =
          (ArrowArray.mk 4 (-1) 0 2 (some 100) (some 200) 0 none none
            true true).privateData ∧
        r.schemaState.releaseCalls = 0 ∧ r.arrayState.releaseCalls = 0) :=
  ⟨_, rfl, C4_owner_marking_amended _ _ _ rfl⟩

/-! ## Claim C5 -/

/-- Draining all `n + 1` references of a co-owned foreign node fires its
release callback exactly once. -/
theorem dropRef_drain (n : Nat) :
    dropRef^[n + 1] ⟨n + 1, true, true, 0⟩ = ⟨0, false, false, 1⟩ := by
  induction n with
  | zero => rfl
  | succ k ih =>
    rw [Function.iterate_succ_apply]
    have hstep : dropRef ⟨k + 2, true, true, 0⟩ = ⟨k + 1, true, true, 0⟩ := by
      simp [dropRef]
    rw [hstep, ih]

/-- Further drops on a fully drained node change nothing: the callback has
already fired exactly once and cannot fire again. -/
theorem dropRef_drained (extra : Nat) :
    dropRef^[extra] ⟨0, false, false, 1⟩ =
      (⟨0, false, false, 1⟩ : ForeignNodeState) := by
  induction extra with
  | zero => rfl
  | succ k ih => rw [Function.iterate_succ_apply, show dropRef ⟨0, false, false, 1⟩ = ⟨0, false, false, 1⟩ from rfl, ih]

/-- Claim C5 (Owner-mode exactly-once release): after a successful
`importFromArrowAsOwner`, dropping every reference held by the buffer views
(however many views share the two foreign nodes) fires the original array's
and the original schema's release callbacks exactly once each — and any
further drops never fire them again. -/
theorem C5_owner_release_exactly_once (s : ArrowSchema) (a : ArrowArray)
    (r : OwnerImportResult) (h : importFromArrowAsOwner s a = .ok r)
    (extra : Nat) :
    (dropRef^[r.schemaState.refs + extra] r.schemaState).releaseCalls = 1 ∧
    (dropRef^[r.arrayState.refs + extra] r.arrayState).releaseCalls = 1 := by
  unfold importFromArrowAsOwner at h
  split at h
  · simp at h
  · rename_i vec himpl
    obtain ⟨hs, ha, -⟩ := importFromArrowImpl_ok_inv himpl
    simp only [Except.ok.injEq] at h
    subst h
    simp only [hs, ha]
    constructor <;>
      · rw [Nat.add_comm, Function.iterate_add_apply, dropRef_drain,
          dropRef_drained]

/-- Witness for C5: owner-importing an int32 array of four values with a
nulls bitmap creates two buffer views; dropping both references (plus three
extra, redundant drops) fires each callback exactly once. -/
theorem C5_owner_release_exactly_once_witness :
    ∃ r, importFromArrowAsOwner
        (.mk (some ['i']) none none 2 [] none true true)
        (.mk 4 (-1) 0 2 (some 100) (some 200) 0 none none true true) = .ok r ∧
      (dropRef^[r.schemaState.refs + 3] r.schemaState).releaseCalls = 1 ∧
      (dropRef^[r.arrayState.refs + 3] r.arrayState).releaseCalls = 1 :=
  ⟨⟨⟨.INTEGER, some ⟨some 100, 1, .owner⟩, 4, ⟨some 200, 16, .owner⟩, none⟩,
      .mk (some ['i']) none none 2 [] none false true,
      .mk 4 (-1) 0 2 (some 100) (some 200) 0 none none false true,
      ⟨2, true, true, 0⟩, ⟨2, true, true, 0⟩⟩, rfl,
    C5_owner_release_exactly_once
      (.mk (some ['i']) none none 2 [] none true true)
      (.mk 4 (-1) 0 2 (some 100) (some 200) 0 none none true true)
      ⟨⟨.INTEGER, some ⟨some 100, 1, .owner⟩, 4, ⟨some 200, 16, .owner⟩, none⟩,
        .mk (some ['i']) none none 2 [] none false true,
        .mk 4 (-1) 0 2 (some 100) (some 200) 0 none none false true,
        ⟨2, true, true, 0⟩, ⟨2, true, true, 0⟩⟩ rfl 3⟩

/-! ## Claim C6 (corrected) -/

@[simp] theorem wrapInBufferView_eq (m : BufferReleaser) (b : Option Nat)
    (len : Nat) : wrapInBufferView m b len = ⟨b, len, m⟩ := by
  cases m <;> rfl

/-- Counterexample to claim C6 as stated: with schema format `"i"` and an
array satisfying every listed precondition (not released, no dictionary, no
children, offset 0, non-negative length, primitive scalar type,
`n_buffers == 2`), the import still fails, because `null_count == 0` with a
non-null `buffers[0]` trips the null-consistency check — so "when all these
preconditions hold for a supported scalar schema, the import succeeds" is
false. -/
theorem C6_import_preconditions_counterexample :
    ((ArrowSchema.mk (some ['i']) none none 2 [] none true true).release =
        true ∧
      (ArrowArray.mk 4 0 0 2 (some 300) (some 400) 0 none none
          true true).release = true ∧
      (ArrowArray.mk 4 0 0 2 (some 300) (some 400) 0 none none
          true true).dictionary = none ∧
      (ArrowArray.mk 4 0 0 2 (some 300) (some 400) 0 none none
          true true).n_children = 0 ∧
      (ArrowArray.mk 4 0 0 2 (some 300) (some 400) 0 none none
          true true).children = none ∧
      (ArrowArray.mk 4 0 0 2 (some 300) (some 400) 0 none none
          true true).offset = 0 ∧
      0 ≤ (ArrowArray.mk 4 0 0 2 (some 300) (some 400) 0 none none
          true true).length ∧
      importFromArrow (.mk (some ['i']) none none 2 [] none true true) =
        .ok .INTEGER ∧
      VeloxType.isPrimitiveType .INTEGER = true ∧
      (ArrowArray.mk 4 0 0 2 (some 300) (some 400) 0 none none
          true true).n_buffers = 2) ∧
    importFromArrowAsViewer
      (.mk (some ['i']) none none 2 [] none true true)
      (.mk 4 0 0 2 (some 300) (some 400) 0 none none true true) =
      .error .nullsBufferUnexpected :=
  ⟨⟨rfl, rfl, rfl, rfl, rfl, rfl, by decide, rfl, rfl, rfl⟩, rfl⟩

/-- Claim C6 as amended: each listed precondition violation fails with its
own named error, in check order; and when all listed preconditions hold for
a supported scalar schema **and the null-count/nulls-buffer consistency of
the nulls step also holds** (`null_count != 0` with non-null `buffers[0]`,
or `null_count == 0` with null `buffers[0]`), the import succeeds.  The last
conjunct transports everything to the two public entry points. -/
theorem C6_import_preconditions_amended :
    (∀ (s : ArrowSchema) (a : ArrowArray) (m : BufferReleaser),
      s.release = false →
      importFromArrowImpl s a m = .error .schemaWasReleased) ∧
    (∀ (s : ArrowSchema) (a : ArrowArray) (m : BufferReleaser),
      s.release = true → a.release = false →
      importFromArrowImpl s a m = .error .arrayWasReleased) ∧
    (∀ (s : ArrowSchema) (a : ArrowArray) (m : BufferReleaser),
      s.release = true → a.release = true → a.dictionary.isSome = true →
      importFromArrowImpl s a m = .error .dictionaryNotSupported) ∧
    (∀ (s : ArrowSchema) (a : ArrowArray) (m : BufferReleaser),
      s.release = true → a.release = true → a.dictionary = none →
      ¬(a.n_children = 0 ∧ a.children = none) →
      importFromArrowImpl s a m = .error .childrenNotSupported) ∧
    (∀ (s : ArrowSchema) (a : ArrowArray) (m : BufferReleaser),
      s.release = true → a.release = true → a.dictionary = none →
      a.n_children = 0 → a.children = none → a.offset ≠ 0 →
      importFromArrowImpl s a m = .error .offsetNotSupported) ∧
    (∀ (s : ArrowSchema) (a : ArrowArray) (m : BufferReleaser),
      s.release = true → a.release = true → a.dictionary = none →
      a.n_children = 0 → a.children = none → a.offset = 0 → a.length < 0 →
      importFromArrowImpl s a m = .error .negativeLength) ∧
    (∀ (s : ArrowSchema) (a : ArrowArray) (m : BufferReleaser)
      (t : VeloxType),
      s.release = true → a.release = true → a.dictionary = none →
      a.n_children = 0 → a.children = none → a.offset = 0 → 0 ≤ a.length →
      importFromArrow s = .ok t → t.isPrimitiveType = false →
      importFromArrowImpl s a m = .error .nonPrimitiveTypeNotSupported) ∧
    (∀ (s : ArrowSchema) (a : ArrowArray) (m : BufferReleaser)
      (t : VeloxType),
      s.release = true → a.release = true → a.dictionary = none →
      a.n_children = 0 → a.children = none → a.offset = 0 → 0 ≤ a.length →
      importFromArrow s = .ok t → t.isPrimitiveType = true →
      ((a.null_count ≠ 0 ∧ a.buffers0.isSome = true) ∨
        (a.null_count = 0 ∧ a.buffers0 = none)) →
      a.n_buffers ≠ 2 →
      importFromArrowImpl s a m = .error .buffersCountMismatch) ∧
    (∀ (s : ArrowSchema) (a : ArrowArray) (m : BufferReleaser)
      (t : VeloxType),
      s.release = true → a.release = true → a.dictionary = none →
      a.n_children = 0 → a.children = none → a.offset = 0 → 0 ≤ a.length →
      importFromArrow s = .ok t → t.isPrimitiveType = true →
      ((a.null_count ≠ 0 ∧ a.buffers0.isSome = true) ∨
        (a.null_count = 0 ∧ a.buffers0 = none)) →
      a.n_buffers = 2 →
      isOkResult (importFromArrowImpl s a m) = true) ∧
    (∀ (s : ArrowSchema) (a : ArrowArray),
      importFromArrowAsViewer s a = importFromArrowImpl s a .viewer ∧
      ∀ e : VeloxError, importFromArrowImpl s a .owner = .error e →
        importFromArrowAsOwner s a = .error e) := by
  refine ⟨?_, ?_, ?_, ?_, ?_, ?_, ?_, ?_, ?_, ?_⟩
  · intro s a m h1
    simp [importFromArrowImpl, h1]
  · intro s a m h1 h2
    simp [importFromArrowImpl, h1, h2]
  · intro s a m h1 h2 h3
    simp [importFromArrowImpl, h1, h2, h3]
  · intro s a m h1 h2 h3 h4
    simp [importFromArrowImpl, h1, h2, h3, Option.isNone_iff_eq_none, h4]
  · intro s a m h1 h2 h3 h4 h5 h6
    simp [importFromArrowImpl, h1, h2, h3, h4, h5, h6]
  · intro s a m h1 h2 h3 h4 h5 h6 h7
    simp [importFromArrowImpl, h1, h2, h3, h4, h5, h6, h7]
  · intro s a m t h1 h2 h3 h4 h5 h6 h7 h8 h9
    simp [importFromArrowImpl, h1, h2, h3, h4, h5, h6, not_lt.mpr h7, h8, h9]
  · intro s a m t h1 h2 h3 h4 h5 h6 h7 h8 h9 hcons h10
    rcases hcons with ⟨hnc, hb0⟩ | ⟨hnc, hb0⟩
    · obtain ⟨p, hp⟩ := Option.isSome_iff_exists.mp hb0
      simp [importFromArrowImpl, h1, h2, h3, h4, h5, h6, not_lt.mpr h7, h8,
        h9, hnc, hp, h10]
    · simp [importFromArrowImpl, h1, h2, h3, h4, h5, h6, not_lt.mpr h7, h8,
        h9, hnc, hb0, h10]
  · intro s a m t h1 h2 h3 h4 h5 h6 h7 h8 h9 hcons h10
    rcases hcons with ⟨hnc, hb0⟩ | ⟨hnc, hb0⟩
    · obtain ⟨p, hp⟩ := Option.isSome_iff_exists.mp hb0
      rw [importFromArrowImpl_ok_withNulls s a m t p h1 h2 h3 h4 h5 h6 h7 h8
        h9 h10 hnc hp]
      rfl
    · rw [importFromArrowImpl_ok_noNulls s a m t h1 h2 h3 h4 h5 h6 h7 h8
        h9 h10 hnc hb0]
      rfl
  · intro s a
    refine ⟨rfl, fun e he => ?_⟩
    unfold importFromArrowAsOwner
    rw [he]

/-- Witness for the amended C6: one representative violation of each kind at
concrete inputs, one success with a nulls bitmap, and the entry-point
transport. -/
theorem C6_import_preconditions_amended_witness :
    importFromArrowImpl (.mk (some ['i']) none none 2 [] none false true)
        (.mk 4 0 0 2 none (some 400) 0 none none true true) .viewer =
      .error .schemaWasReleased ∧
    importFromArrowImpl (.mk (some ['i']) none none 2 [] none true true)
        (.mk 4 0 0 2 none (some 400) 0 none none false true) .viewer =
      .error .arrayWasReleased ∧
    importFromArrowImpl (.mk (some ['i']) none none 2 [] none true true)
        (.mk 4 0 0 2 none (some 400) 0 none
          (some (.mk 0 0 0 0 none none 0 none none false false))
          true true) .viewer =
      .error .dictionaryNotSupported ∧
    importFromArrowImpl (.mk (some ['i']) none none 2 [] none true true)
        (.mk 4 0 0 2 none (some 400) 1 (some [none]) none true true) .viewer =
      .error .childrenNotSupported ∧
    importFromArrowImpl (.mk (some ['i']) none none 2 [] none true true)
        (.mk 4 0 3 2 none (some 400) 0 none none true true) .viewer =
      .error .offsetNotSupported ∧
    importFromArrowImpl (.mk (some ['i']) none none 2 [] none true true)
        (.mk (-1) 0 0 2 none (some 400) 0 none none true true) .viewer =
      .error .negativeLength ∧
    importFromArrowImpl (.mk (some ['+', 's']) none none 2 [] none true true)
        (.mk 4 0 0 2 none (some 400) 0 none none true true) .viewer =
      .error .nonPrimitiveTypeNotSupported ∧
    importFromArrowImpl (.mk (some ['i']) none none 2 [] none true true)
        (.mk 4 (-1) 0 3 (some 300) (some 400) 0 none none true true) .viewer =
      .error .buffersCountMismatch ∧
    isOkResult (importFromArrowImpl
        (.mk (some ['i']) none none 2 [] none true true)
        (.mk 4 (-1) 0 2 (some 300) (some 400) 0 none none true true)
        .viewer) = true ∧
    (importFromArrowAsViewer (.mk (some ['i']) none none 2 [] none true true)
        (.mk 4 0 0 2 none (some 400) 0 none none true true) =
      importFromArrowImpl (.mk (some ['i']) none none 2 [] none true true)
        (.mk 4 0 0 2 none (some 400) 0 none none true true) .viewer) :=
  ⟨C6_import_preconditions_amended.1 _
      (.mk 4 0 0 2 none (some 400) 0 none none true true) .viewer rfl,
    C6_import_preconditions_amended.2.1 _
      (.mk 4 0 0 2 none (some 400) 0 none none false true) .viewer rfl rfl,
    C6_import_preconditions_amended.2.2.1 _
      (.mk 4 0 0 2 none (some 400) 0 none
        (some (.mk 0 0 0 0 none none 0 none none false false)) true true)
      .viewer rfl rfl rfl,
    C6_import_preconditions_amended.2.2.2.1 _
      (.mk 4 0 0 2 none (some 400) 1 (some [none]) none true true) .viewer
      rfl rfl rfl (by simp),
    C6_import_preconditions_amended.2.2.2.2.1 _
      (.mk 4 0 3 2 none (some 400) 0 none none true true) .viewer
      rfl rfl rfl rfl rfl (by decide),
    C6_import_preconditions_amended.2.2.2.2.2.1 _
      (.mk (-1) 0 0 2 none (some 400) 0 none none true true) .viewer
      rfl rfl rfl rfl rfl rfl (by decide),
    C6_import_preconditions_amended.2.2.2.2.2.2.1 _
      (.mk 4 0 0 2 none (some 400) 0 none none true true) .viewer
      (.ROW []) rfl rfl rfl rfl rfl rfl (by decide) rfl rfl,
    C6_import_preconditions_amended.2.2.2.2.2.2.2.1 _
      (.mk 4 (-1) 0 3 (some 300) (some 400) 0 none none true true) .viewer
      .INTEGER rfl rfl rfl rfl rfl rfl (by decide) rfl rfl
      (Or.inl ⟨by decide, rfl⟩) (by decide),
    C6_import_preconditions_amended.2.2.2.2.2.2.2.2.1 _
      (.mk 4 (-1) 0 2 (some 300) (some 400) 0 none none true true) .viewer
      .INTEGER rfl rfl rfl rfl rfl rfl (by decide) rfl rfl
      (Or.inl ⟨by decide, rfl⟩) rfl,
    (C6_import_preconditions_amended.2.2.2.2.2.2.2.2.2
      (.mk (some ['i']) none none 2 [] none true true)
      (.mk 4 0 0 2 none (some 400) 0 none none true true)).1⟩

/-! ## Claim C7 -/

@[simp] theorem createFlatVector_nulls (t : VeloxType)
    (ns : Option VeloxBufferView) (len : Int) (vs : VeloxBufferView)
    (nc : Int) : (createFlatVector t ns len vs nc).nulls = ns := rfl

@[simp] theorem createFlatVector_values (t : VeloxType)
    (ns : Option VeloxBufferView) (len : Int) (vs : VeloxBufferView)
    (nc : Int) : (createFlatVector t ns len vs nc).values = vs := rfl

/-- Claim C7 (Null-count/nulls-buffer consistency on import): an array-data
node with `null_count == 0` and a non-null `buffers[0]` is rejected; one
with `null_count != 0` (including `-1`) and a null `buffers[0]` is rejected;
and with a non-zero (or unknown) count and a non-null `buffers[0]` — the
other checks passing — the import succeeds and wraps `buffers[0]` into a
buffer view of exactly `⌈length/8⌉` bytes. -/
theorem C7_null_consistency :
    (∀ (s : ArrowSchema) (a : ArrowArray) (m : BufferReleaser),
      a.null_count = 0 → a.buffers0.isSome = true →
      isOkResult (importFromArrowImpl s a m) = false) ∧
    (∀ (s : ArrowSchema) (a : ArrowArray) (m : BufferReleaser),
      a.null_count ≠ 0 → a.buffers0 = none →
      isOkResult (importFromArrowImpl s a m) = false) ∧
    (∀ (s : ArrowSchema) (a : ArrowArray) (m : BufferReleaser)
      (t : VeloxType) (p : Nat),
      s.release = true → a.release = true → a.dictionary = none →
      a.n_children = 0 → a.children = none → a.offset = 0 → 0 ≤ a.length →
      importFromArrow s = .ok t → t.isPrimitiveType = true →
      a.n_buffers = 2 → a.null_count ≠ 0 → a.buffers0 = some p →
      ∃ v, importFromArrowImpl s a m = .ok v ∧
        v.nulls = some ⟨a.buffers0, nbytes a.length, m⟩) := by
  refine ⟨?_, ?_, ?_⟩
  · intro s a m hnc hb0
    cases himpl : importFromArrowImpl s a m with
    | error e => rfl
    | ok v =>
      obtain ⟨-, -, -, -, -, -, -, -, t, -, -, hdisj⟩ :=
        importFromArrowImpl_ok_inv himpl
      rcases hdisj with ⟨hnc', -, -⟩ | ⟨-, hb0', -⟩
      · exact absurd hnc hnc'
      · rw [hb0'] at hb0
        simp at hb0
  · intro s a m hnc hb0
    cases himpl : importFromArrowImpl s a m with
    | error e => rfl
    | ok v =>
      obtain ⟨-, -, -, -, -, -, -, -, t, -, -, hdisj⟩ :=
        importFromArrowImpl_ok_inv himpl
      rcases hdisj with ⟨-, hb0', -⟩ | ⟨hnc', -, -⟩
      · rw [hb0] at hb0'
        simp at hb0'
      · exact absurd hnc' hnc
  · intro s a m t p h1 h2 h3 h4 h5 h6 h7 h8 h9 h10 hnc hb0
    exact ⟨_, importFromArrowImpl_ok_withNulls s a m t p h1 h2 h3 h4 h5 h6
      h7 h8 h9 h10 hnc hb0, by simp⟩

/-- Witness for C7: `null_count = 0` with a non-null bitmap is rejected;
`null_count = 3` with a null bitmap is rejected; `null_count = -1` with a
non-null bitmap imports, wrapping the bitmap in a 1-byte view
(`⌈4/8⌉ = 1`). -/
theorem C7_null_consistency_witness :
    isOkResult (importFromArrowImpl
      (.mk (some ['i']) none none 2 [] none true true)
      (.mk 4 0 0 2 (some 300) (some 400) 0 none none true true) .viewer) =
      false ∧
    isOkResult (importFromArrowImpl
      (.mk (some ['i']) none none 2 [] none true true)
      (.mk 4 3 0 2 none (some 400) 0 none none true true) .viewer) = false ∧
    (∃ v, importFromArrowImpl
        (.mk (some ['i']) none none 2 [] none true true)
        (.mk 4 (-1) 0 2 (some 300) (some 400) 0 none none true true)
        .viewer = .ok v ∧
      v.nulls = some ⟨(ArrowArray.mk 4 (-1) 0 2 (some 300) (some 400) 0 none
        none true true).buffers0,
        nbytes (ArrowArray.mk 4 (-1) 0 2 (some 300) (some 400) 0 none none
          true true).length, .viewer⟩) :=
  ⟨C7_null_consistency.1 (.mk (some ['i']) none none 2 [] none true true) _
      .viewer rfl rfl,
    C7_null_consistency.2.1 (.mk (some ['i']) none none 2 [] none true true)
      _ .viewer (by decide) rfl,
    C7_null_consistency.2.2 _ _ .viewer .INTEGER 300 rfl rfl rfl rfl rfl rfl
      (by decide) rfl rfl rfl (by decide) rfl⟩

/-! ## Claim C8 -/

/-- Claim C8 (Array-export postconditions): for every flat vector of a
supported scalar kind, `exportToArrow` sets `length` to the vector's size,
`offset` to 0, `null_count` to the cached null count when known and `-1`
otherwise, `buffers[0]` to the raw null-bitmap pointer (null when the vector
has no nulls), `buffers[1]` to the raw value-storage pointer,
`n_children = 0` and `dictionary = null`; it fails with a not-implemented
error whenever the encoding is not flat or the kind is not a supported
scalar kind. -/
theorem C8_array_export_postconditions :
    (∀ v : VeloxVector, v.encoding = .FLAT →
      isFlatExportableKind v.vecType = true →
      exportToArrowArray v = .ok (.mk (Int.ofNat v.size)
        (v.nullCount.getD (-1)) 0 kMaxBuffers v.rawNulls v.rawValues 0 none
        none true true)) ∧
    (∀ v : VeloxVector, v.encoding ≠ .FLAT →
      exportToArrowArray v = .error .encodingNotImplemented) ∧
    (∀ v : VeloxVector, v.encoding = .FLAT →
      isFlatExportableKind v.vecType = false →
      exportToArrowArray v = .error .flatVectorKindNotImplemented) := by
  refine ⟨?_, ?_, ?_⟩
  · intro v he hk
    simp [exportToArrowArray, exportFlatVector, he, hk]
  · intro v he
    cases hv : v.encoding <;>
      simp_all [exportToArrowArray]
  · intro v he hk
    simp [exportToArrowArray, exportFlatVector, he, hk]

/-- Witness for C8: a flat int32 vector of size 5 with no nulls and an
unknown null count exports with `length 5`, `null_count -1`, null
`buffers[0]`; a dictionary-encoded vector and a flat string vector are
rejected. -/
theorem C8_array_export_postconditions_witness :
    exportToArrowArray ⟨.INTEGER, .FLAT, 5, none, none, some 400⟩ =
      .ok (.mk 5 (-1) 0 2 none (some 400) 0 none none true true) ∧
    exportToArrowArray ⟨.INTEGER, .DICTIONARY, 5, none, none, some 400⟩ =
      .error .encodingNotImplemented ∧
    exportToArrowArray ⟨.VARCHAR, .FLAT, 5, none, none, some 400⟩ =
      .error .flatVectorKindNotImplemented :=
  ⟨C8_array_export_postconditions.1 ⟨.INTEGER, .FLAT, 5, none, none, some 400⟩
      rfl rfl,
    C8_array_export_postconditions.2.1
      ⟨.INTEGER, .DICTIONARY, 5, none, none, some 400⟩ (by decide),
    C8_array_export_postconditions.2.2
      ⟨.VARCHAR, .FLAT, 5, none, none, some 400⟩ rfl rfl⟩

/-! ## Claim C9 -/

/-- Claim C9 (Zero-copy viewer import): for every node accepted by
`importFromArrowAsViewer`, the values buffer of the resulting vector points
at exactly the foreign `buffers[1]` pointer, and the nulls buffer, when
present, at exactly `buffers[0]`.  The views hold only the foreign pointer
and a length — no payload bytes exist to be copied. -/
theorem C9_viewer_zero_copy (s : ArrowSchema) (a : ArrowArray)
    (v : FlatVector) (h : importFromArrowAsViewer s a = .ok v) :
    v.values.ptr = a.buffers1 ∧
    (∀ nv : VeloxBufferView, v.nulls = some nv → nv.ptr = a.buffers0) := by
  obtain ⟨-, -, -, -, -, -, -, -, t, -, -, hdisj⟩ :=
    importFromArrowImpl_ok_inv h
  rcases hdisj with ⟨-, -, rfl⟩ | ⟨-, -, rfl⟩
  · refine ⟨by simp, ?_⟩
    intro nv hnv
    simp only [createFlatVector_nulls, wrapInBufferView_eq,
      Option.some.injEq] at hnv
    rw [← hnv]
  · refine ⟨by simp, ?_⟩
    intro nv hnv
    simp at hnv

/-- Witness for C9 at a concrete import with a nulls bitmap: both view
pointers equal the foreign ones. -/
theorem C9_viewer_zero_copy_witness :
    ∃ v, importFromArrowAsViewer
        (.mk (some ['i']) none none 2 [] none true true)
        (.mk 4 (-1) 0 2 (some 300) (some 400) 0 none none true true) =
        .ok v ∧
      (v.values.ptr = (ArrowArray.mk 4 (-1) 0 2 (some 300) (some 400) 0 none
          none true true).buffers1 ∧
        ∀ nv : VeloxBufferView, v.nulls = some nv →
          nv.ptr = (ArrowArray.mk 4 (-1) 0 2 (some 300) (some 400) 0 none
            none true true).buffers0) :=
  ⟨⟨.INTEGER, some ⟨some 300, 1, .viewer⟩, 4, ⟨some 400, 16, .viewer⟩, none⟩,
    rfl, C9_viewer_zero_copy (.mk (some ['i']) none none 2 [] none true true)
      (.mk 4 (-1) 0 2 (some 300) (some 400) 0 none none true true)
      ⟨.INTEGER, some ⟨some 300, 1, .viewer⟩, 4, ⟨some 400, 16, .viewer⟩,
        none⟩ rfl⟩

/-! ## Claim C10 -/

/-- Claim C10 (implicit): every `ArrowArray` produced by `exportToArrow` has
`n_buffers == 2` (`kMaxBuffers`) unconditionally — `buffers[0]` is the raw
null-bitmap pointer, null when the vector has none, but the slot stays
counted — which is exactly the importer's own
`VELOX_USER_CHECK_EQ(n_buffers, 2)` precondition. -/
theorem C10_export_two_buffers (v : VeloxVector) (arr : ArrowArray)
    (h : exportToArrowArray v = .ok arr) :
    arr.n_buffers = 2 ∧ arr.buffers0 = v.rawNulls := by
  unfold exportToArrowArray at h
  split at h
  · split at h
    · simp at h
    · simp only [Except.ok.injEq] at h
      subst h
      simp [kMaxBuffers]
  · simp at h

/-- Witness for C10: a flat int32 vector without a null bitmap exports with
a null `buffers[0]` yet `n_buffers = 2`. -/
theorem C10_export_two_buffers_witness :
    ∃ arr, exportToArrowArray ⟨.INTEGER, .FLAT, 5, some 0, none, some 400⟩ =
        .ok arr ∧
      (arr.n_buffers = 2 ∧ arr.buffers0 = none) :=
  ⟨.mk 5 0 0 2 none (some 400) 0 none none true true, rfl,
    C10_export_two_buffers ⟨.INTEGER, .FLAT, 5, some 0, none, some 400⟩ _ rfl⟩

end VeloxArrowBridge
